import Mathlib

/-!
Verification of the fee and position-sizing arithmetic of the
kalshi-arbitrage-bot repository.

The two components under study are pure arithmetic over decimal prices and
volumes; we embed them over `ℚ` (exact rational arithmetic, matching the
real-number reading of the spec).

* `src/core/fee_calculator.py` — class `FeeCalculator` with tiered fee
  rates, per-trade fees, round-trip fees, net-profit and arbitrage-profit
  breakdowns, and `update_volume`.
* `src/kelly_criterion.py` — `calculate_kelly_bet` and its wrappers.
-/

namespace KalshiBot

/-- Embeds `FeeCalculator._get_base_fee_rate` from
`src/core/fee_calculator.py`.  The Python method reads only
`self.volume_30d`, so we take that field as the argument:
`if volume >= 25000: 0.035 elif >= 10000: 0.045 elif >= 2500: 0.055
else 0.07`. -/
def _get_base_fee_rate (volume_30d : ℚ) : ℚ :=
  if volume_30d ≥ 25000 then 0.035
  else if volume_30d ≥ 10000 then 0.045
  else if volume_30d ≥ 2500 then 0.055
  else 0.07

/-- State of a Python `FeeCalculator` instance: the two attributes set in
`__init__` and mutated only by `update_volume`. -/
structure FeeCalculator where
  volume_30d : ℚ
  base_fee_rate : ℚ
  deriving Repr, DecidableEq

/-- Embeds `FeeCalculator.__init__(volume_30d=0)`: stores the volume and
derives `base_fee_rate = self._get_base_fee_rate()`. -/
def FeeCalculator.init (volume_30d : ℚ) : FeeCalculator :=
  ⟨volume_30d, _get_base_fee_rate volume_30d⟩

/-- Embeds `FeeCalculator.calculate_trade_fee(price, quantity, is_maker)`:
the maker rate is `base_fee_rate * 0.5`; the fee is charged on the
maximum payout `quantity * 1.00` (the `price` argument is accepted but
unused, exactly as in the source). -/
def FeeCalculator.calculate_trade_fee (self : FeeCalculator)
    (price quantity : ℚ) (is_maker : Bool) : ℚ :=
  let fee_rate := if is_maker then self.base_fee_rate * 0.5 else self.base_fee_rate
  let max_payout := quantity * 1.00
  let fee := max_payout * fee_rate
  fee

/-- The dict returned by `calculate_round_trip_fee`. -/
structure RoundTripFees where
  buy_fee : ℚ
  sell_fee : ℚ
  total_fees : ℚ
  fee_rate_buy : ℚ
  fee_rate_sell : ℚ
  deriving Repr, DecidableEq

/-- Embeds `FeeCalculator.calculate_round_trip_fee(buy_price, sell_price,
quantity)`: buy leg taker (`is_maker=False`), sell leg maker
(`is_maker=True`). -/
def FeeCalculator.calculate_round_trip_fee (self : FeeCalculator)
    (buy_price sell_price quantity : ℚ) : RoundTripFees :=
  let buy_fee := self.calculate_trade_fee buy_price quantity false
  let sell_fee := self.calculate_trade_fee sell_price quantity true
  ⟨buy_fee, sell_fee, buy_fee + sell_fee,
    self.base_fee_rate, self.base_fee_rate * 0.5⟩

/-- The dict returned by `calculate_net_profit`. -/
structure ProfitBreakdown where
  cost : ℚ
  revenue : ℚ
  gross_profit : ℚ
  fees : ℚ
  net_profit : ℚ
  fee_breakdown : RoundTripFees
  deriving Repr, DecidableEq

/-- Embeds `FeeCalculator.calculate_net_profit(buy_price, sell_price,
quantity)`. -/
def FeeCalculator.calculate_net_profit (self : FeeCalculator)
    (buy_price sell_price quantity : ℚ) : ProfitBreakdown :=
  let cost := buy_price * quantity
  let revenue := sell_price * quantity
  let gross_profit := revenue - cost
  let fees := self.calculate_round_trip_fee buy_price sell_price quantity
  let total_fees := fees.total_fees
  let net_profit := gross_profit - total_fees
  ⟨cost, revenue, gross_profit, total_fees, net_profit, fees⟩

/-- The dict returned by `calculate_arbitrage_profit`. -/
structure ArbitrageResult where
  total_cost : ℚ
  guaranteed_payout : ℚ
  gross_profit : ℚ
  total_fees : ℚ
  net_profit : ℚ
  total_probability : ℚ
  deviation_pct : ℚ
  is_profitable : Bool
  deriving Repr, DecidableEq

/-- Embeds `FeeCalculator.calculate_arbitrage_profit(yes_price, no_price,
quantity)`: both legs are taker buys; one side pays out `$1.00` per
contract. -/
def FeeCalculator.calculate_arbitrage_profit (self : FeeCalculator)
    (yes_price no_price quantity : ℚ) : ArbitrageResult :=
  let total_cost := (yes_price + no_price) * quantity
  let guaranteed_payout := quantity * 1.00
  let yes_fee := self.calculate_trade_fee yes_price quantity false
  let no_fee := self.calculate_trade_fee no_price quantity false
  let total_fees := yes_fee + no_fee
  let gross_profit := guaranteed_payout - total_cost
  let net_profit := gross_profit - total_fees
  let total_probability := yes_price + no_price
  let deviation := total_probability - 1.0
  ⟨total_cost, guaranteed_payout, gross_profit, total_fees, net_profit,
    total_probability, deviation * 100, decide (net_profit > 0)⟩

/-- Embeds `FeeCalculator.update_volume(new_volume_30d)`: the resulting
state after `self.volume_30d = new_volume_30d;
self.base_fee_rate = self._get_base_fee_rate()`. -/
def FeeCalculator.update_volume (self : FeeCalculator)
    (new_volume_30d : ℚ) : FeeCalculator :=
  ⟨new_volume_30d, _get_base_fee_rate new_volume_30d⟩

/-- Embeds `calculate_kelly_bet(win_probability, market_price, bankroll,
max_fraction=0.25, edge=0.05)` from `src/kelly_criterion.py`.  Returns 0
when `market_price <= 0 or market_price >= 1`; otherwise computes
`odds = 1/market_price - 1`, `kelly_fraction = edge / odds`, caps it with
`min(·, max_fraction)` then `max(·, 0)`, and returns
`kelly_fraction * bankroll`.  `win_probability` is accepted but unused,
exactly as in the source. -/
def calculate_kelly_bet (win_probability market_price bankroll
    max_fraction edge : ℚ) : ℚ :=
  if market_price ≤ 0 ∨ market_price ≥ 1 then 0
  else
    let odds := 1 / market_price - 1
    let kelly_fraction := edge / odds
    let kelly_fraction := min kelly_fraction max_fraction
    let kelly_fraction := max kelly_fraction 0
    kelly_fraction * bankroll

/-- Embeds `calculate_win_probability(market_price, edge)`:
`min(market_price + edge, 0.99)`. -/
def calculate_win_probability (market_price edge : ℚ) : ℚ :=
  min (market_price + edge) 0.99

/-- Embeds `get_kelly_fraction(edge, market_price, max_fraction=0.25)`:
bet size for a $1 bankroll, with the win probability derived from
`calculate_win_probability`. -/
def get_kelly_fraction (edge market_price max_fraction : ℚ) : ℚ :=
  let win_prob := calculate_win_probability market_price edge
  calculate_kelly_bet win_prob market_price 1.0 max_fraction edge

/-- Embeds `get_bet_size(edge, market_price, bankroll,
max_fraction=0.25)`. -/
def get_bet_size (edge market_price bankroll max_fraction : ℚ) : ℚ :=
  let win_prob := calculate_win_probability market_price edge
  calculate_kelly_bet win_prob market_price bankroll max_fraction edge

/-- C1: the fee rate fixed at construction by `FeeCalculator` is a step
function of the 30-day volume: exactly 0.035 for `volume_30d ≥ 25000`,
0.045 on `[10000, 25000)`, 0.055 on `[2500, 10000)`, and 0.07 for every
`volume_30d < 2500`, negative inputs included; no interpolation. -/
theorem C1_base_fee_rate_tiers (v : ℚ) :
    (v ≥ 25000 → (FeeCalculator.init v).base_fee_rate = 0.035) ∧
    (10000 ≤ v ∧ v < 25000 → (FeeCalculator.init v).base_fee_rate = 0.045) ∧
    (2500 ≤ v ∧ v < 10000 → (FeeCalculator.init v).base_fee_rate = 0.055) ∧
    (v < 2500 → (FeeCalculator.init v).base_fee_rate = 0.07) := by
  simp only [FeeCalculator.init, _get_base_fee_rate]
  refine ⟨fun h => ?_, fun h => ?_, fun h => ?_, fun h => ?_⟩ <;>
    split_ifs with h1 h2 h3 <;>
    first
      | rfl
      | (exfalso; simp only [not_le] at * <;> try obtain ⟨ha, hb⟩ := h) <;> linarith

/-- Witness for C1 at the concrete volume 30000 (top tier). -/
theorem C1_witness :
    (30000 : ℚ) ≥ 25000 ∧ (FeeCalculator.init 30000).base_fee_rate = 0.035 :=
  ⟨by norm_num, (C1_base_fee_rate_tiers 30000).1 (by norm_num)⟩

/-- C2: for bankroll ≥ 0 and max_fraction ≥ 0, `calculate_kelly_bet`
returns exactly 0 when the price is outside the open interval (0,1);
otherwise it returns `kelly_fraction * bankroll` where `kelly_fraction`
is `edge / (1/price - 1)` clamped into `[0, max_fraction]`, so the bet is
never negative and never exceeds `max_fraction * bankroll`. -/
theorem C2_kelly_clamped (w price bankroll max_fraction edge : ℚ)
    (hb : 0 ≤ bankroll) (hm : 0 ≤ max_fraction) :
    ((price ≤ 0 ∨ price ≥ 1) →
      calculate_kelly_bet w price bankroll max_fraction edge = 0) ∧
    (0 < price → price < 1 →
      calculate_kelly_bet w price bankroll max_fraction edge
          = max (min (edge / (1 / price - 1)) max_fraction) 0 * bankroll ∧
      0 ≤ max (min (edge / (1 / price - 1)) max_fraction) 0 ∧
      max (min (edge / (1 / price - 1)) max_fraction) 0 ≤ max_fraction ∧
      0 ≤ calculate_kelly_bet w price bankroll max_fraction edge ∧
      calculate_kelly_bet w price bankroll max_fraction edge
          ≤ max_fraction * bankroll) := by
  constructor
  · intro h
    simp only [calculate_kelly_bet, if_pos h]
  · intro hp0 hp1
    have hgt : ¬ (price ≤ 0 ∨ price ≥ 1) := by
      push_neg
      exact ⟨hp0, hp1⟩
    have heq : calculate_kelly_bet w price bankroll max_fraction edge
        = max (min (edge / (1 / price - 1)) max_fraction) 0 * bankroll := by
      simp only [calculate_kelly_bet, if_neg hgt]
    have hclamp0 : 0 ≤ max (min (edge / (1 / price - 1)) max_fraction) 0 :=
      le_max_right _ _
    have hclampM : max (min (edge / (1 / price - 1)) max_fraction) 0
        ≤ max_fraction :=
      max_le (min_le_right _ _) hm
    refine ⟨heq, hclamp0, hclampM, ?_, ?_⟩
    · rw [heq]
      exact mul_nonneg hclamp0 hb
    · rw [heq]
      exact mul_le_mul_of_nonneg_right hclampM hb

/-- Witness for C2 at a degenerate price of 2 (≥ 1): the bet is 0. -/
theorem C2_witness :
    (0 : ℚ) ≤ 1000 ∧ (0 : ℚ) ≤ 0.25 ∧
    calculate_kelly_bet 0.55 2 1000 0.25 0.05 = 0 :=
  ⟨by norm_num, by norm_num,
    (C2_kelly_clamped 0.55 2 1000 0.25 0.05 (by norm_num) (by norm_num)).1
      (Or.inr (by norm_num))⟩

/-- C3: `calculate_trade_fee` charges `(quantity * 1.00) * effective_rate`
for every price, quantity, maker flag and calculator state; the fee is
independent of the `price` argument and is never charged on
`price * quantity`. -/
theorem C3_fee_on_max_payout (c : FeeCalculator)
    (price price2 quantity : ℚ) (m : Bool) :
    c.calculate_trade_fee price quantity m
        = (quantity * 1.00)
            * (if m then c.base_fee_rate * 0.5 else c.base_fee_rate) ∧
    c.calculate_trade_fee price quantity m
        = c.calculate_trade_fee price2 quantity m := by
  exact ⟨rfl, rfl⟩

/-- C4: `calculate_net_profit` returns `cost = buy_price * quantity`,
`revenue = sell_price * quantity`,
`gross_profit = revenue - cost = (sell_price - buy_price) * quantity`, and
`net_profit = gross_profit - total_fees`, with the buy leg always charged
at the full taker rate and the sell leg at the half maker rate. -/
theorem C4_net_profit_breakdown (c : FeeCalculator)
    (buy_price sell_price quantity : ℚ) :
    (c.calculate_net_profit buy_price sell_price quantity).cost
        = buy_price * quantity ∧
    (c.calculate_net_profit buy_price sell_price quantity).revenue
        = sell_price * quantity ∧
    (c.calculate_net_profit buy_price sell_price quantity).gross_profit
        = (c.calculate_net_profit buy_price sell_price quantity).revenue
            - (c.calculate_net_profit buy_price sell_price quantity).cost ∧
    (c.calculate_net_profit buy_price sell_price quantity).gross_profit
        = (sell_price - buy_price) * quantity ∧
    (c.calculate_net_profit buy_price sell_price quantity).net_profit
        = (c.calculate_net_profit buy_price sell_price quantity).gross_profit
            - (c.calculate_net_profit buy_price sell_price quantity).fees ∧
    (c.calculate_net_profit buy_price sell_price quantity).fees
        = (c.calculate_round_trip_fee buy_price sell_price quantity).total_fees ∧
    (c.calculate_round_trip_fee buy_price sell_price quantity).buy_fee
        = (quantity * 1.00) * c.base_fee_rate ∧
    (c.calculate_round_trip_fee buy_price sell_price quantity).sell_fee
        = (quantity * 1.00) * (c.base_fee_rate * 0.5) := by
  refine ⟨rfl, rfl, rfl, ?_, rfl, rfl, rfl, rfl⟩
  simp only [FeeCalculator.calculate_net_profit]
  ring

/-- C5: `calculate_arbitrage_profit` pays out exactly `quantity * 1.00`
independent of both prices, charges both legs at the full taker rate,
reports `total_probability = yes + no`,
`deviation_pct = (total_probability - 1) * 100`,
`net_profit = (payout - cost) - fees`, and
`is_profitable ↔ net_profit > 0`. -/
theorem C5_arbitrage_breakdown (c : FeeCalculator)
    (yes_price no_price quantity : ℚ)
    (hy : 0 ≤ yes_price) (hn : 0 ≤ no_price) (hq : 0 ≤ quantity) :
    (c.calculate_arbitrage_profit yes_price no_price quantity).guaranteed_payout
        = quantity * 1.00 ∧
    (c.calculate_arbitrage_profit yes_price no_price quantity).total_fees
        = c.calculate_trade_fee yes_price quantity false
            + c.calculate_trade_fee no_price quantity false ∧
    (c.calculate_arbitrage_profit yes_price no_price quantity).total_fees
        = (quantity * 1.00) * c.base_fee_rate
            + (quantity * 1.00) * c.base_fee_rate ∧
    (c.calculate_arbitrage_profit yes_price no_price quantity).total_probability
        = yes_price + no_price ∧
    (c.calculate_arbitrage_profit yes_price no_price quantity).deviation_pct
        = ((yes_price + no_price) - 1.0) * 100 ∧
    (c.calculate_arbitrage_profit yes_price no_price quantity).net_profit
        = ((c.calculate_arbitrage_profit yes_price no_price quantity).guaranteed_payout
            - (c.calculate_arbitrage_profit yes_price no_price quantity).total_cost)
            - (c.calculate_arbitrage_profit yes_price no_price quantity).total_fees ∧
    ((c.calculate_arbitrage_profit yes_price no_price quantity).is_profitable = true
        ↔ (c.calculate_arbitrage_profit yes_price no_price quantity).net_profit > 0) := by
  refine ⟨rfl, rfl, rfl, rfl, rfl, rfl, ?_⟩
  simp only [FeeCalculator.calculate_arbitrage_profit, decide_eq_true_eq]

/-- Witness for C5 at volume 0, YES 0.52, NO 0.50, 100 contracts. -/
theorem C5_witness :
    (0 : ℚ) ≤ 0.52 ∧ (0 : ℚ) ≤ 0.50 ∧ (0 : ℚ) ≤ 100 ∧
    ((FeeCalculator.init 0).calculate_arbitrage_profit 0.52 0.50 100).guaranteed_payout
        = 100 * 1.00 :=
  ⟨by norm_num, by norm_num, by norm_num,
    (C5_arbitrage_breakdown (FeeCalculator.init 0) 0.52 0.50 100
      (by norm_num) (by norm_num) (by norm_num)).1⟩

/-- C6: for every volume tier, every valid price in (0,1) and every
quantity ≥ 0, the maker fee is exactly half the taker fee, and the base
fee rate is never negative. -/
theorem C6_maker_half_taker (v price quantity : ℚ)
    (hp0 : 0 < price) (hp1 : price < 1) (hq : 0 ≤ quantity) :
    (FeeCalculator.init v).calculate_trade_fee price quantity true
        = 0.5 * (FeeCalculator.init v).calculate_trade_fee price quantity false ∧
    0 ≤ (FeeCalculator.init v).base_fee_rate := by
  constructor
  · show (quantity * 1.00) * ((FeeCalculator.init v).base_fee_rate * 0.5)
        = 0.5 * ((quantity * 1.00) * (FeeCalculator.init v).base_fee_rate)
    ring
  · simp only [FeeCalculator.init, _get_base_fee_rate]
    split_ifs <;> norm_num

/-- Witness for C6 at volume 0, price 0.5, 10 contracts. -/
theorem C6_witness :
    (0 : ℚ) < 0.5 ∧ (0.5 : ℚ) < 1 ∧ (0 : ℚ) ≤ 10 ∧
    ((FeeCalculator.init 0).calculate_trade_fee 0.5 10 true
        = 0.5 * (FeeCalculator.init 0).calculate_trade_fee 0.5 10 false ∧
      0 ≤ (FeeCalculator.init 0).base_fee_rate) :=
  ⟨by norm_num, by norm_num, by norm_num,
    C6_maker_half_taker 0 0.5 10 (by norm_num) (by norm_num) (by norm_num)⟩

/-- C7: with exact rational arithmetic, a calculator built at volume 0
has base rate 0.07, and `calculate_net_profit(0.45, 0.50, 10)` gives
buy_fee 0.70, sell_fee 0.35, gross_profit 0.50 and net_profit −0.55. -/
theorem C7_worked_example :
    (FeeCalculator.init 0).base_fee_rate = 0.07 ∧
    ((FeeCalculator.init 0).calculate_net_profit 0.45 0.50 10).fee_breakdown.buy_fee
        = 0.70 ∧
    ((FeeCalculator.init 0).calculate_net_profit 0.45 0.50 10).fee_breakdown.sell_fee
        = 0.35 ∧
    ((FeeCalculator.init 0).calculate_net_profit 0.45 0.50 10).gross_profit
        = 0.50 ∧
    ((FeeCalculator.init 0).calculate_net_profit 0.45 0.50 10).net_profit
        = -0.55 := by
  norm_num [FeeCalculator.init, _get_base_fee_rate,
    FeeCalculator.calculate_net_profit, FeeCalculator.calculate_round_trip_fee,
    FeeCalculator.calculate_trade_fee]

/-- C8: every embedded operation is a total function of its numeric
arguments (the embedding assigns a value to every rational input); the
only division, in `calculate_kelly_bet`, is guarded: prices outside (0,1)
short-circuit to a zero bet, and inside (0,1) the divisor
`1/price - 1` is nonzero; volumes below 2500 (negative included) resolve
to the highest tier 0.07. -/
theorem C8_total_with_safe_defaults
    (w price bankroll max_fraction edge v : ℚ) :
    ((price ≤ 0 ∨ price ≥ 1) →
      calculate_kelly_bet w price bankroll max_fraction edge = 0) ∧
    (0 < price → price < 1 → 1 / price - 1 ≠ 0) ∧
    (v < 2500 → (FeeCalculator.init v).base_fee_rate = 0.07) := by
  refine ⟨fun h => ?_, fun hp0 hp1 => ?_, fun hv => ?_⟩
  · simp only [calculate_kelly_bet, if_pos h]
  · have hlt : 1 < 1 / price := by
      rw [lt_div_iff₀ hp0]
      linarith
    have : 0 < 1 / price - 1 := by linarith
    exact ne_of_gt this
  · simp only [FeeCalculator.init, _get_base_fee_rate]
    split_ifs with h1 h2 h3 <;> first | rfl | linarith

/-- Witness for C8 at price −0.25 and volume −100. -/
theorem C8_witness :
    ((-0.25 : ℚ) ≤ 0 ∨ (-0.25 : ℚ) ≥ 1) ∧ (-100 : ℚ) < 2500 ∧
    calculate_kelly_bet 0.5 (-0.25) 1000 0.25 0.05 = 0 ∧
    (FeeCalculator.init (-100)).base_fee_rate = 0.07 :=
  ⟨Or.inl (by norm_num), by norm_num,
    (C8_total_with_safe_defaults 0.5 (-0.25) 1000 0.25 0.05 (-100)).1
      (Or.inl (by norm_num)),
    (C8_total_with_safe_defaults 0.5 (-0.25) 1000 0.25 0.05 (-100)).2.2
      (by norm_num)⟩

/-- C9: `update_volume v` on any state yields exactly the state of a
fresh `FeeCalculator.init v`; the invariant
`base_fee_rate = _get_base_fee_rate volume_30d` holds after construction
and is preserved by `update_volume` (which is the only state-producing
operation). -/
theorem C9_update_volume_reinit (c : FeeCalculator) (v : ℚ) :
    c.update_volume v = FeeCalculator.init v ∧
    (c.update_volume v).volume_30d = v ∧
    (FeeCalculator.init v).base_fee_rate
        = _get_base_fee_rate (FeeCalculator.init v).volume_30d ∧
    (c.update_volume v).base_fee_rate
        = _get_base_fee_rate (c.update_volume v).volume_30d := by
  exact ⟨rfl, rfl, rfl, rfl⟩

/-- C10: the `win_probability` argument of `calculate_kelly_bet` has no
influence on the result: two calls agreeing on price, bankroll,
max_fraction and edge return equal bets for arbitrary win probabilities,
and the `get_bet_size` wrapper's derived win probability is dead input. -/
theorem C10_win_probability_unused
    (w1 w2 price bankroll max_fraction edge : ℚ) :
    calculate_kelly_bet w1 price bankroll max_fraction edge
        = calculate_kelly_bet w2 price bankroll max_fraction edge ∧
    get_bet_size edge price bankroll max_fraction
        = calculate_kelly_bet w1 price bankroll max_fraction edge := by
  exact ⟨rfl, rfl⟩

end KalshiBot
